import Mathlib

/-!
Shallow embedding of the `SpecGenerator` wizard controller from
`pro_tender/pro_tender/page/spec_generator/spec_generator.js`.

The controller owns: `current_step` (1 = Selecting, 2 = Answering, 3 = Generating),
`current_question_index` (navigation cursor), `session_name`, and `questions`
(the ordered Question Set with mutable answers).  DOM state that the controller
reads or writes is modelled explicitly: the value of the `#answer-input` element
(`answer_input`; `none` models a missing element, whose jQuery `.val()` is
`undefined`), the index of the question currently shown in `#question-container`
(`rendered_question`), the download section of step 3, and the list of messages
surfaced to the user by `frappe.msgprint` / `frappe.show_alert`.  Asynchronous
`frappe.call` invocations are modelled by passing the settled outcome of each
service call as an explicit argument; the trace of issued calls is recorded in
`calls` (one entry per `frappe.call`, by method name).
-/

namespace SpecGen

/-- One question of the Question Set, as produced by
`pro_tender.api.analyze_and_generate_questions`.  `select_options` models the
already-parsed content of the `select_options` JSON field (the source parses it
with `JSON.parse(q.select_options || '[]')` at render time).  `answer` is an
`Option` because a JS field can be `undefined` (`none`) as well as any string. -/
structure Question where
  question_malay : String
  question_type : String
  select_options : List String
  answer : Option String
deriving DecidableEq

/-- Default used for out-of-range `List.getD` reads; guards in the source keep
every actual access in range. -/
def dummyQ : Question := { question_malay := "", question_type := "", select_options := [], answer := none }

/-- A user-facing message shown by `frappe.msgprint` or `frappe.show_alert`.
`indicator` is the indicator colour when the call supplies one (`red`, `green`,
`orange`), `none` for a plain one-argument `frappe.msgprint(string)`. -/
structure Msg where
  indicator : Option String
  text : String
deriving DecidableEq

/-- The mutable state of one `SpecGenerator` instance plus the DOM state the
controller reads back (see module docstring). -/
structure WizardState where
  current_step : Nat
  current_question_index : Nat
  session_name : Option String
  questions : List Question
  answer_input : Option String
  rendered_question : Option Nat
  messages : List Msg
  calls : List String
  download_links : List String
  spec_link : Option String
  generate_button_shown : Bool
  download_section_shown : Bool
deriving DecidableEq

/-- The state built by the constructor: step 1, cursor 0, no session, no
questions, empty question container, generate button present, download section
hidden. -/
def initialState : WizardState :=
  { current_step := 1
    current_question_index := 0
    session_name := none
    questions := []
    answer_input := none
    rendered_question := none
    messages := []
    calls := []
    download_links := []
    spec_link := none
    generate_button_shown := true
    download_section_shown := false }

/-- JS `v || d` on a possibly-`undefined` string: `undefined` and `""` are
falsy, every other string is truthy. -/
def jsOr (v : Option String) (d : String) : String :=
  match v with
  | some s => if s = "" then d else s
  | none => d

/-- JS truthiness of a possibly-`undefined` string (`if (markdown_url)` …). -/
def jsTruthy (v : Option String) : Bool :=
  match v with
  | some s => s != ""
  | none => false

/-- Settled outcome of `frappe.call('pro_tender.api.create_session')`:
`ok` = `r.message.success` with the issued `session_name`; `fail` =
callback ran with `success` false (`error` is `r.message?.error`, possibly
absent); `transport` = the `error:` handler fired. -/
inductive CreateSessionResult
  | ok (session_name : String)
  | fail (error : Option String)
  | transport
deriving DecidableEq

/-- Settled outcome of `frappe.call('pro_tender.api.analyze_and_generate_questions')`. -/
inductive GenerateQuestionsResult
  | ok (questions : List Question)
  | fail (error : Option String)
  | transport
deriving DecidableEq

/-- Settled outcome of `frappe.call('pro_tender.api.save_answers')`.  The
source's callback only tests `r.message.success`, and the call has no `error:`
handler; the `fail` payload is therefore never read. -/
inductive SaveAnswersResult
  | ok
  | fail (error : Option String)
  | transport
deriving DecidableEq

/-- Settled outcome of `frappe.call('pro_tender.api.generate_specification')`:
on success the server returns optional artifact URLs, the name of the persisted
Project Specification record, and the `pdf_generated` flag. -/
inductive GenerateSpecResult
  | ok (markdown_file_url pdf_file_url : Option String) (spec_name : String) (pdf_generated : Bool)
  | fail (error : Option String)
  | transport (err_message : String)
deriving DecidableEq

/-- `frappe.msgprint` / `frappe.show_alert`: appends one surfaced message. -/
def msgprint (indicator : Option String) (text : String) (s : WizardState) : WizardState :=
  { s with messages := s.messages ++ [{ indicator := indicator, text := text }] }

/-- `go_to_step(step)`: switches the visible `.step-content` panel; the only
controller-state effect is the current step number. -/
def go_to_step (step : Nat) (s : WizardState) : WizardState :=
  { s with current_step := step }

/-- The value held by the `#answer-input` element right after `render_question`
has rebuilt `#question-container` for question `q` (the `input_html` switch):
`Text`/`Date`/`Number` inputs carry `q.answer || ''`; a `Select` carries the
option equal (`===`) to `q.answer` if there is one, else the default
`-- Select --` option whose value is `""`; for any other `question_type` the
switch produces no input element at all, so a later `.val()` is `undefined`
(`none`). -/
def rendered_input_value (q : Question) : Option String :=
  match q.question_type with
  | "Text" => some (jsOr q.answer "")
  | "Select" =>
    some (match q.answer with
      | some a => if a ∈ q.select_options then a else ""
      | none => "")
  | "Date" => some (jsOr q.answer "")
  | "Number" => some (jsOr q.answer "")
  | _ => none

/-- `render_question(index)`: returns immediately when
`index < 0 || index >= this.questions.length`; otherwise sets
`current_question_index`, rebuilds the question container (tracked by
`rendered_question` and the resulting `#answer-input` value) and refreshes the
progress/navigation display (display-only: no controller state). -/
def render_question (index : Int) (s : WizardState) : WizardState :=
  if index < 0 ∨ (s.questions.length : Int) ≤ index then s
  else
    { s with
      current_question_index := index.toNat
      rendered_question := some index.toNat
      answer_input := rendered_input_value (s.questions.getD index.toNat dummyQ) }

/-- `save_current_answer()`: reads `#answer-input` (`.val()`, `undefined` when
the element is absent) and stores it into the question at the cursor, guarded
by `current_question_index < questions.length`. -/
def save_current_answer (s : WizardState) : WizardState :=
  if s.current_question_index < s.questions.length then
    { s with
      questions := s.questions.set s.current_question_index
        { s.questions.getD s.current_question_index dummyQ with answer := s.answer_input } }
  else s

/-- `save_all_answers()`: issues `pro_tender.api.save_answers`; the callback
moves to step 3 only when `r.message.success`; when it is not, the callback
does nothing further, and the call installs no `error:` handler, so a
transport failure also changes nothing. -/
def save_all_answers (res : SaveAnswersResult) (s : WizardState) : WizardState :=
  let s1 := { s with calls := s.calls ++ ["pro_tender.api.save_answers"] }
  match res with
  | .ok => go_to_step 3 s1
  | .fail _ => s1
  | .transport => s1

/-- `show_next_question()`: advance the cursor while
`current_question_index < questions.length - 1` (JS number arithmetic, hence
the `Int` comparison), otherwise persist all answers. -/
def show_next_question (res : SaveAnswersResult) (s : WizardState) : WizardState :=
  if (s.current_question_index : Int) < (s.questions.length : Int) - 1 then
    render_question ((s.current_question_index : Int) + 1) s
  else
    save_all_answers res s

/-- `show_previous_question()`: decrement the cursor when it is positive. -/
def show_previous_question (s : WizardState) : WizardState :=
  if 0 < s.current_question_index then
    render_question ((s.current_question_index : Int) - 1) s
  else s

/-- The `#btn-next-question` click handler bound in `bind_events`:
`save_current_answer()` then `show_next_question()`. -/
def goNext (res : SaveAnswersResult) (s : WizardState) : WizardState :=
  show_next_question res (save_current_answer s)

/-- The `#btn-prev-question` click handler bound in `bind_events`:
`save_current_answer()` then `show_previous_question()`. -/
def goPrev (s : WizardState) : WizardState :=
  show_previous_question (save_current_answer s)

/-- JS `String.prototype.trim`: strip leading and trailing whitespace.
(Structurally recursive model of `.trim()`, so that it evaluates inside the
kernel; `String.trim` itself is defined by well-founded recursion.) -/
def jsTrim (s : String) : String :=
  String.mk (((s.data.dropWhile Char.isWhitespace).reverse.dropWhile Char.isWhitespace).reverse)

/-- The filter used by `update_progress`: `q.answer && q.answer.trim()` is
truthy exactly when the answer is a string whose trim is non-empty. -/
def isAnswered (q : Question) : Bool :=
  jsTrim (jsOr q.answer "") != ""

/-- JS `Math.round` on a non-negative value: `⌊x + 1/2⌋` (the source's operand
`(answered / total) * 100` is non-negative).  Uses the executable
`Rat.floor`. -/
def jsRound (x : ℚ) : ℤ :=
  (x + 1 / 2).floor

/-- `update_progress()`: the percentage written to the `#progress-bar`
(`Math.round((answered / total) * 100)` when `total > 0`, else `0`); the badge
additionally shows `answered/total`. -/
def update_progress (qs : List Question) : ℤ :=
  let answered := (qs.filter isAnswered).length
  let total := qs.length
  if 0 < total then jsRound ((answered : ℚ) / (total : ℚ) * 100) else 0

/-- `analyze_and_generate_questions()`: issues
`pro_tender.api.analyze_and_generate_questions`.  On success it stores the
questions; an empty set shows a green `Complete` message and goes straight to
step 3, a non-empty one goes to step 2 and renders question 0.  On a callback
failure it shows `r.message?.error || 'Error generating questions'`; the
`error:` handler shows the Gemini hint. -/
def analyze_and_generate_questions (res : GenerateQuestionsResult) (s : WizardState) : WizardState :=
  let s1 := { s with calls := s.calls ++ ["pro_tender.api.analyze_and_generate_questions"] }
  match res with
  | .ok qs =>
    if qs.length = 0 then
      go_to_step 3 (msgprint (some "green")
        "All information is already available from approval documents." { s1 with questions := qs })
    else
      render_question 0 (go_to_step 2 { s1 with questions := qs })
  | .fail err => msgprint (some "red") (jsOr err "Error generating questions") s1
  | .transport => msgprint none "Gemini API Error. Please check your API key in Gemini Settings." s1

/-- `start_analysis()`: reads the two selects (passed here as `project` /
`template`; the placeholder option's value is `""`).  When either is falsy it
shows the red validation message and returns without any `frappe.call`.
Otherwise it issues `pro_tender.api.create_session`; on success it stores
`session_name` and chains into `analyze_and_generate_questions` (whose settled
outcome is `genRes`); on callback failure it shows
`r.message?.error || 'Unknown error'`; on transport failure a plain message. -/
def start_analysis (project template : String)
    (createRes : CreateSessionResult) (genRes : GenerateQuestionsResult)
    (s : WizardState) : WizardState :=
  if project = "" ∨ template = "" then
    msgprint (some "red") "Please select both project and template" s
  else
    let s1 := { s with calls := s.calls ++ ["pro_tender.api.create_session"] }
    match createRes with
    | .ok name => analyze_and_generate_questions genRes { s1 with session_name := some name }
    | .fail err => msgprint (some "red") (jsOr err "Unknown error") s1
    | .transport => msgprint none "Error connecting to server" s1

/-- `show_download_links(result)`: fills `#download-section` with a download
button per truthy artifact URL (markdown first, then pdf) plus the record link,
hides the generate button and shows the section. -/
def show_download_links (markdown_file_url pdf_file_url : Option String)
    (spec_name : String) (s : WizardState) : WizardState :=
  { s with
    download_links :=
      (if jsTruthy markdown_file_url then [jsOr markdown_file_url ""] else [])
        ++ (if jsTruthy pdf_file_url then [jsOr pdf_file_url ""] else [])
    spec_link := some ("/app/project-specification/" ++ spec_name)
    generate_button_shown := false
    download_section_shown := true }

/-- `generate_specification()`: issues `pro_tender.api.generate_specification`.
On success it shows the download links and a green `frappe.show_alert`, with a
PDF warning appended when `pdf_generated` is false.  On callback failure it
shows `'Error: ' + (r.message?.error || 'Unknown')`; on transport failure
`'Error generating specification: ' + err.message`. -/
def generate_specification (res : GenerateSpecResult) (s : WizardState) : WizardState :=
  let s1 := { s with calls := s.calls ++ ["pro_tender.api.generate_specification"] }
  match res with
  | .ok md pdf name pdfGen =>
    let s2 := show_download_links md pdf name s1
    let message :=
      if pdfGen then "Document generated successfully!"
      else "Document generated successfully!" ++ " (Note: PDF generation failed, but Markdown is available)"
    msgprint (some "green") message s2
  | .fail err => msgprint none ("Error: " ++ jsOr err "Unknown") s1
  | .transport em => msgprint none ("Error generating specification: " ++ em) s1

/-- An attempt to leave the Selecting stage fails when `create_session` or
`analyze_and_generate_questions` settles unsuccessfully. -/
def attempt_fails : CreateSessionResult → GenerateQuestionsResult → Bool
  | .ok _, .ok _ => false
  | _, _ => true

/-! ## Helper lemmas -/

/-- The executable `Rat.floor` agrees with `Int.floor`. -/
lemma ratFloor_eq_intFloor (a : ℚ) : a.floor = ⌊a⌋ :=
  (Rat.floor_def' a).trans Rat.floor_def.symm

lemma jsRound_eq_intFloor (x : ℚ) : jsRound x = ⌊x + 1 / 2⌋ :=
  ratFloor_eq_intFloor _

/-- Writing back the element already stored at an in-range index is a no-op. -/
lemma set_getD_self (l : List α) (i : Nat) (d : α) (h : i < l.length) :
    l.set i (l.getD i d) = l := by
  induction l generalizing i with
  | nil => simp at h
  | cons a l ih =>
    cases i with
    | zero => simp [List.set, List.getD]
    | succ n =>
      simp only [List.set, List.getD, List.getElem?_cons_succ]
      have := ih n (by simpa using h)
      simpa [List.getD] using this

/-! ## Concrete fixtures used by the closed theorems -/

/-- An Answering-stage state at the last (single) question, answered "42",
with the input showing the stored answer. -/
def answeringLast : WizardState :=
  { current_step := 2
    current_question_index := 0
    session_name := some "S1"
    questions := [{ question_malay := "Q1", question_type := "Text", select_options := [], answer := some "42" }]
    answer_input := some "42"
    rendered_question := some 0
    messages := []
    calls := []
    download_links := []
    spec_link := none
    generate_button_shown := true
    download_section_shown := false }

/-- An Answering-stage state whose first question has an unrecognized
`question_type` and an existing answer. -/
def unknownTypeState : WizardState :=
  { current_step := 2
    current_question_index := 0
    session_name := some "S1"
    questions :=
      [{ question_malay := "Q1", question_type := "Checkbox", select_options := [], answer := some "yes" },
       { question_malay := "Q2", question_type := "Text", select_options := [], answer := some "" }]
    answer_input := none
    rendered_question := none
    messages := []
    calls := []
    download_links := []
    spec_link := none
    generate_button_shown := true
    download_section_shown := false }

/-- A 201-question set with exactly 200 stripped-non-empty answers. -/
def twoHundredOneQs : List Question :=
  List.replicate 200 { question_malay := "Q", question_type := "Text", select_options := [], answer := some "x" }
    ++ [{ question_malay := "Q", question_type := "Text", select_options := [], answer := none }]

/-! ## Claim theorems -/

/-- **C1** (code bug evidence).  `goNext()` at the last index of a one-question
set, when `saveAnswers` fails with "network error": the cursor does not move
past the last index, the stage stays Answering (step 2), the previously typed
answer is persisted in memory for retry, and the `save_answers` call was
issued — but `messages` is unchanged: the failure's error message is *not*
surfaced (the `save_all_answers` callback has no failure branch and the call
no `error:` handler), contradicting the claim. -/
theorem goNext_last_saveAnswers_failure_silent :
    (goNext (.fail (some "network error")) answeringLast).current_step = 2
      ∧ (goNext (.fail (some "network error")) answeringLast).current_question_index = 0
      ∧ ((goNext (.fail (some "network error")) answeringLast).questions.getD 0 dummyQ).answer = some "42"
      ∧ (goNext (.fail (some "network error")) answeringLast).messages = []
      ∧ (goNext (.fail (some "network error")) answeringLast).calls = ["pro_tender.api.save_answers"] := by
  decide

/-- **C2** (counterexample).  From the initial Selecting state, an attempt in
which `createSession` succeeds with "S1" and `generateQuestions` then fails
leaves the stage at Selecting, but the in-memory data is *not* exactly as
before the call: the session id of the failed attempt is retained in
`session_name`. -/
theorem start_analysis_failure_retains_session :
    (start_analysis "P1" "T1" (.ok "S1") (.fail (some "boom")) initialState).current_step = 1
      ∧ (start_analysis "P1" "T1" (.ok "S1") (.fail (some "boom")) initialState).session_name = some "S1"
      ∧ initialState.session_name = none := by
  decide

/-- **C2** (amended).  Any failed attempt to leave Selecting (with both
selections non-empty) keeps the stage, questions, cursor and rendered view
exactly as before and surfaces exactly one message; the attempt issues
`create_session` (and `analyze_and_generate_questions` when the former
succeeded), so a new attempt re-issues both calls; however the session id of a
successful `createSession` is retained in memory even when the subsequent
`generateQuestions` fails (it is overwritten by the next attempt). -/
theorem start_analysis_failure_keeps_selecting (s : WizardState) (p t : String)
    (c : CreateSessionResult) (g : GenerateQuestionsResult)
    (hp : p ≠ "") (ht : t ≠ "") (hfail : attempt_fails c g = true) :
    (start_analysis p t c g s).current_step = s.current_step
      ∧ (start_analysis p t c g s).questions = s.questions
      ∧ (start_analysis p t c g s).current_question_index = s.current_question_index
      ∧ (start_analysis p t c g s).answer_input = s.answer_input
      ∧ (start_analysis p t c g s).rendered_question = s.rendered_question
      ∧ (∃ m : Msg, (start_analysis p t c g s).messages = s.messages ++ [m])
      ∧ (start_analysis p t c g s).session_name =
          (match c with | .ok name => some name | _ => s.session_name)
      ∧ (start_analysis p t c g s).calls = s.calls ++
          (match c with
            | .ok _ => ["pro_tender.api.create_session", "pro_tender.api.analyze_and_generate_questions"]
            | _ => ["pro_tender.api.create_session"]) := by
  cases c with
  | ok name =>
    cases g with
    | ok qs => simp [attempt_fails] at hfail
    | fail err =>
      simp [start_analysis, analyze_and_generate_questions, msgprint, if_neg, hp, ht]
    | transport =>
      simp [start_analysis, analyze_and_generate_questions, msgprint, if_neg, hp, ht]
  | fail err => simp [start_analysis, msgprint, if_neg, hp, ht]
  | transport => simp [start_analysis, msgprint, if_neg, hp, ht]

theorem start_analysis_failure_keeps_selecting_witness :
    ("P1" ≠ "" ∧ "T1" ≠ "" ∧ attempt_fails (.ok "S1") (.fail (some "boom")) = true)
      ∧ ((start_analysis "P1" "T1" (.ok "S1") (.fail (some "boom")) initialState).current_step
            = initialState.current_step
          ∧ (start_analysis "P1" "T1" (.ok "S1") (.fail (some "boom")) initialState).questions
            = initialState.questions
          ∧ (start_analysis "P1" "T1" (.ok "S1") (.fail (some "boom")) initialState).current_question_index
            = initialState.current_question_index
          ∧ (start_analysis "P1" "T1" (.ok "S1") (.fail (some "boom")) initialState).answer_input
            = initialState.answer_input
          ∧ (start_analysis "P1" "T1" (.ok "S1") (.fail (some "boom")) initialState).rendered_question
            = initialState.rendered_question
          ∧ (∃ m : Msg, (start_analysis "P1" "T1" (.ok "S1") (.fail (some "boom")) initialState).messages
              = initialState.messages ++ [m])
          ∧ (start_analysis "P1" "T1" (.ok "S1") (.fail (some "boom")) initialState).session_name
            = (match (.ok "S1" : CreateSessionResult) with | .ok name => some name | _ => initialState.session_name)
          ∧ (start_analysis "P1" "T1" (.ok "S1") (.fail (some "boom")) initialState).calls = initialState.calls ++
              (match (.ok "S1" : CreateSessionResult) with
                | .ok _ => ["pro_tender.api.create_session", "pro_tender.api.analyze_and_generate_questions"]
                | _ => ["pro_tender.api.create_session"])) :=
  ⟨⟨by decide, by decide, by decide⟩,
    start_analysis_failure_keeps_selecting initialState "P1" "T1" (.ok "S1") (.fail (some "boom"))
      (by decide) (by decide) (by decide)⟩

/-- **C3**.  When `generateQuestions` succeeds with an empty Question Set from
the Selecting stage, the controller goes straight to step 3 (Generating): the
question container is never (re)rendered, the cursor is untouched, and the one
surfaced message has the success indicator `green` — the outcome is treated as
a success, not an error. -/
theorem empty_questions_skip_answering (s : WizardState) (h : s.current_step = 1) :
    (analyze_and_generate_questions (.ok []) s).current_step = 3
      ∧ (analyze_and_generate_questions (.ok []) s).rendered_question = s.rendered_question
      ∧ (analyze_and_generate_questions (.ok []) s).answer_input = s.answer_input
      ∧ (analyze_and_generate_questions (.ok []) s).current_question_index = s.current_question_index
      ∧ (analyze_and_generate_questions (.ok []) s).messages = s.messages ++
          [{ indicator := some "green", text := "All information is already available from approval documents." }] := by
  simp [analyze_and_generate_questions, go_to_step, msgprint]

theorem empty_questions_skip_answering_witness :
    initialState.current_step = 1
      ∧ ((analyze_and_generate_questions (.ok []) initialState).current_step = 3
          ∧ (analyze_and_generate_questions (.ok []) initialState).rendered_question = initialState.rendered_question
          ∧ (analyze_and_generate_questions (.ok []) initialState).answer_input = initialState.answer_input
          ∧ (analyze_and_generate_questions (.ok []) initialState).current_question_index
            = initialState.current_question_index
          ∧ (analyze_and_generate_questions (.ok []) initialState).messages = initialState.messages ++
              [{ indicator := some "green", text := "All information is already available from approval documents." }]) :=
  ⟨by decide, empty_questions_skip_answering initialState (by decide)⟩

/-- **C4**.  Invoking `start_analysis` with at least one of the two selections
empty issues no `frappe.call` (the call trace is unchanged), surfaces the red
local validation message, and touches nothing else: stage, session, questions,
cursor all stay as they were. -/
theorem start_validation_no_network (s : WizardState) (p t : String)
    (c : CreateSessionResult) (g : GenerateQuestionsResult) (h : p = "" ∨ t = "") :
    (start_analysis p t c g s).calls = s.calls
      ∧ (start_analysis p t c g s).messages = s.messages ++
          [{ indicator := some "red", text := "Please select both project and template" }]
      ∧ (start_analysis p t c g s).current_step = s.current_step
      ∧ (start_analysis p t c g s).session_name = s.session_name
      ∧ (start_analysis p t c g s).questions = s.questions
      ∧ (start_analysis p t c g s).current_question_index = s.current_question_index := by
  simp [start_analysis, msgprint, if_pos h]

theorem start_validation_no_network_witness :
    (("" : String) = "" ∨ ("T1" : String) = "")
      ∧ ((start_analysis "" "T1" .transport .transport initialState).calls = initialState.calls
          ∧ (start_analysis "" "T1" .transport .transport initialState).messages = initialState.messages ++
              [{ indicator := some "red", text := "Please select both project and template" }]
          ∧ (start_analysis "" "T1" .transport .transport initialState).current_step = initialState.current_step
          ∧ (start_analysis "" "T1" .transport .transport initialState).session_name = initialState.session_name
          ∧ (start_analysis "" "T1" .transport .transport initialState).questions = initialState.questions
          ∧ (start_analysis "" "T1" .transport .transport initialState).current_question_index
            = initialState.current_question_index) :=
  ⟨by decide, start_validation_no_network initialState "" "T1" .transport .transport (by decide)⟩

/-- **C7** (code bug evidence).  Rendering a question whose `question_type` is
the unrecognized `"Checkbox"`: the render completes and the flow is not
crashed (the container is rebuilt and navigation proceeds to the next
question), but *no* input control is produced and `messages` stays empty — the
unrecognized type is a silent fallback, not a surfaced error; navigating away
even overwrites the question's existing answer with `undefined` (the `.val()`
of the missing input). -/
theorem unknown_question_type_silent_fallback :
    (render_question 0 unknownTypeState).rendered_question = some 0
      ∧ (render_question 0 unknownTypeState).answer_input = none
      ∧ (render_question 0 unknownTypeState).messages = []
      ∧ (goNext .ok (render_question 0 unknownTypeState)).current_question_index = 1
      ∧ ((goNext .ok (render_question 0 unknownTypeState)).questions.getD 0 dummyQ).answer = none := by
  decide

/-- **C8**.  `generate_specification` succeeding with only the markdown
artifact (`pdf_file_url` absent, `pdf_generated` false) is handled as a
degraded success: the terminal download view is shown with exactly the one
produced artifact plus the record link, the generate button is withdrawn, and
the one surfaced message is a green success alert carrying the PDF warning —
not an error. -/
theorem generate_document_degraded_success (s : WizardState) (md name : String)
    (hmd : md ≠ "") :
    (generate_specification (.ok (some md) none name false) s).download_section_shown = true
      ∧ (generate_specification (.ok (some md) none name false) s).generate_button_shown = false
      ∧ (generate_specification (.ok (some md) none name false) s).download_links = [md]
      ∧ (generate_specification (.ok (some md) none name false) s).spec_link
          = some ("/app/project-specification/" ++ name)
      ∧ (generate_specification (.ok (some md) none name false) s).messages = s.messages ++
          [{ indicator := some "green",
             text := "Document generated successfully! (Note: PDF generation failed, but Markdown is available)" }] := by
  simp [generate_specification, show_download_links, msgprint, jsTruthy, jsOr, hmd]

theorem generate_document_degraded_success_witness :
    ("spec.md" : String) ≠ ""
      ∧ ((generate_specification (.ok (some "spec.md") none "SP-1" false) initialState).download_section_shown = true
          ∧ (generate_specification (.ok (some "spec.md") none "SP-1" false) initialState).generate_button_shown = false
          ∧ (generate_specification (.ok (some "spec.md") none "SP-1" false) initialState).download_links = ["spec.md"]
          ∧ (generate_specification (.ok (some "spec.md") none "SP-1" false) initialState).spec_link
              = some ("/app/project-specification/" ++ "SP-1")
          ∧ (generate_specification (.ok (some "spec.md") none "SP-1" false) initialState).messages
              = initialState.messages ++
                [{ indicator := some "green",
                   text := "Document generated successfully! (Note: PDF generation failed, but Markdown is available)" }]) :=
  ⟨by decide, generate_document_degraded_success initialState "spec.md" "SP-1" (by decide)⟩

set_option maxRecDepth 40000 in
/-- **C6** (counterexample).  On the 201-question set with 200 stripped
non-empty answers the displayed percentage is `round(100 * 200 / 201) = 100`
although not every question's stripped answer is non-empty — the claim's
"equals 100 only when every question is answered" is false. -/
theorem progress_100_without_all_answered :
    update_progress twoHundredOneQs = 100
      ∧ ¬ (∀ q ∈ twoHundredOneQs, isAnswered q = true) := by
  constructor
  · have ha : (twoHundredOneQs.filter isAnswered).length = 200 := by decide
    have ht : twoHundredOneQs.length = 201 := by decide
    simp only [update_progress, ha, ht]
    rw [if_pos (by norm_num), jsRound_eq_intFloor, Int.floor_eq_iff]
    constructor <;> norm_num
  · decide

/-- **C6** (amended).  For every non-empty Question Set the displayed
percentage is `round(100 * answered / total)` (`Math.round`, i.e.
`⌊x + 1/2⌋`), and it equals 100 exactly when `200 * answered ≥ 199 * total`;
in particular, for Question Sets of fewer than 200 questions it equals 100 only
when every question's stripped answer is non-empty. -/
theorem update_progress_formula (qs : List Question) (h : qs ≠ []) :
    update_progress qs
        = jsRound (100 * ((qs.filter isAnswered).length : ℚ) / (qs.length : ℚ))
      ∧ (update_progress qs = 100 ↔ 199 * qs.length ≤ 200 * (qs.filter isAnswered).length)
      ∧ (qs.length ≤ 199 →
          (update_progress qs = 100 ↔ ∀ q ∈ qs, isAnswered q = true)) := by
  have ht : 0 < qs.length := List.length_pos.mpr h
  have hat : (qs.filter isAnswered).length ≤ qs.length := List.length_filter_le _ _
  have htQ : (0 : ℚ) < (qs.length : ℚ) := by exact_mod_cast ht
  have hup : update_progress qs
      = jsRound (((qs.filter isAnswered).length : ℚ) / (qs.length : ℚ) * 100) := by
    simp [update_progress, if_pos ht]
  have hiff : update_progress qs = 100
      ↔ 199 * qs.length ≤ 200 * (qs.filter isAnswered).length := by
    rw [hup, jsRound_eq_intFloor, Int.floor_eq_iff]
    have hub : ((qs.filter isAnswered).length : ℚ) / (qs.length : ℚ) * 100 + 1 / 2
        < (100 : ℤ) + 1 := by
      have h1 : ((qs.filter isAnswered).length : ℚ) / (qs.length : ℚ) ≤ 1 := by
        rw [div_le_one htQ]
        exact_mod_cast hat
      push_cast
      nlinarith
    constructor
    · rintro ⟨h1, -⟩
      have h2 : (199 : ℚ) / 2 * (qs.length : ℚ) ≤ 100 * ((qs.filter isAnswered).length : ℚ) := by
        rw [← sub_le_iff_le_add] at h1
        rw [div_mul_eq_mul_div, le_div_iff₀ htQ] at *
        push_cast at h1 ⊢
        nlinarith
      have : (199 : ℚ) * (qs.length : ℚ) ≤ 200 * ((qs.filter isAnswered).length : ℚ) := by
        nlinarith
      exact_mod_cast this
    · intro hle
      refine ⟨?_, hub⟩
      have hleQ : (199 : ℚ) * (qs.length : ℚ) ≤ 200 * ((qs.filter isAnswered).length : ℚ) := by
        exact_mod_cast hle
      have h2 : (199 : ℚ) / 2 ≤ ((qs.filter isAnswered).length : ℚ) / (qs.length : ℚ) * 100 := by
        rw [div_mul_eq_mul_div, le_div_iff₀ htQ]
        nlinarith
      push_cast
      linarith
  refine ⟨?_, hiff, ?_⟩
  · rw [hup]
    congr 1
    ring
  · intro h199
    rw [hiff]
    constructor
    · intro hle
      have hlen : (qs.filter isAnswered).length = qs.length := by omega
      have : qs.filter isAnswered = qs := List.filter_sublist qs |>.eq_of_length hlen
      exact fun q hq => List.filter_eq_self.mp this q hq
    · intro hall
      have : qs.filter isAnswered = qs := List.filter_eq_self.mpr hall
      rw [this]
      omega

/-- A one-question answered fixture for the progress witness. -/
def oneAnsweredQ : List Question :=
  [{ question_malay := "Q1", question_type := "Text", select_options := [], answer := some "42" }]

lemma getD_mem (l : List α) (i : Nat) (d : α) (h : i < l.length) : l.getD i d ∈ l := by
  rw [List.getD_eq_getElem?_getD, List.getElem?_eq_getElem h]
  exact List.getElem_mem h

/-- `render_question` at an in-range index: sets the cursor, re-renders the
container and places the question's rendered value in the input. -/
lemma render_question_in_range (s : WizardState) (i : Nat) (h : i < s.questions.length) :
    render_question (i : Int) s =
      { s with current_question_index := i
               rendered_question := some i
               answer_input := rendered_input_value (s.questions.getD i dummyQ) } := by
  rw [render_question, if_neg]
  · simp
  · omega

/-- `save_current_answer` is a no-op when the input still holds exactly the
answer stored at the cursor. -/
lemma save_current_answer_synced (s : WizardState)
    (h : s.current_question_index < s.questions.length)
    (hs : s.answer_input = (s.questions.getD s.current_question_index dummyQ).answer) :
    save_current_answer s = s := by
  rw [save_current_answer, if_pos h, hs]
  have h2 : { s.questions.getD s.current_question_index dummyQ with
        answer := (s.questions.getD s.current_question_index dummyQ).answer }
      = s.questions.getD s.current_question_index dummyQ := rfl
  rw [h2, set_getD_self _ _ _ h, ← hs]

/-- **C5**.  From an interior cursor position of a consistent Answering state
(the input shows the stored answer of the current question, the shown question
is the current one, and every question's stored answer round-trips through its
input widget — true for all recognized types with string answers, and for
`Select` answers drawn from the options), clicking previous-then-next or
next-then-previous restores the entire wizard state: same cursor, same
in-memory answer at that position, and no other question's answer is lost. -/
theorem navigation_roundtrip_preserves_answers (s : WizardState) (res : SaveAnswersResult)
    (h0 : 0 < s.current_question_index)
    (h1 : s.current_question_index + 1 < s.questions.length)
    (hrt : ∀ q ∈ s.questions, rendered_input_value q = q.answer)
    (hsync : s.answer_input = (s.questions.getD s.current_question_index dummyQ).answer)
    (hrq : s.rendered_question = some s.current_question_index) :
    goPrev (goNext res s) = s ∧ goNext res (goPrev s) = s := by
  obtain ⟨st, ci, sn, qs, ai, rq, ms, cl, dl, sl, gb, ds⟩ := s
  dsimp only at h0 h1 hrt hsync hrq
  have hcur : ci < qs.length := by omega
  have hget : ∀ j, (h : j < qs.length) →
      rendered_input_value (qs.getD j dummyQ) = (qs.getD j dummyQ).answer :=
    fun j h => hrt _ (getD_mem _ _ _ h)
  have hsave : save_current_answer ⟨st, ci, sn, qs, ai, rq, ms, cl, dl, sl, gb, ds⟩
      = ⟨st, ci, sn, qs, ai, rq, ms, cl, dl, sl, gb, ds⟩ :=
    save_current_answer_synced _ hcur hsync
  constructor
  · rw [goNext, hsave, show_next_question,
      if_pos (show ((ci : Int) < (qs.length : Int) - 1) by omega),
      show ((ci : Int) + 1) = ((ci + 1 : Nat) : Int) by omega,
      render_question_in_range _ _ h1]
    rw [goPrev,
      save_current_answer_synced _ h1 (hget (ci + 1) h1),
      show_previous_question,
      if_pos (show 0 < ci + 1 by omega),
      show ((ci + 1 : Nat) : Int) - 1 = ((ci : Nat) : Int) by omega,
      render_question_in_range _ _ hcur]
    rw [hget ci hcur, ← hsync, ← hrq]
  · rw [goPrev, hsave, show_previous_question, if_pos h0,
      show ((ci : Int) - 1) = ((ci - 1 : Nat) : Int) by omega,
      render_question_in_range _ _ (show ci - 1 < qs.length by omega)]
    rw [goNext,
      save_current_answer_synced _ (show ci - 1 < qs.length by omega)
        (hget (ci - 1) (by omega)),
      show_next_question,
      if_pos (show ((ci - 1 : Nat) : Int) < (qs.length : Int) - 1 by omega),
      show ((ci - 1 : Nat) : Int) + 1 = ((ci : Nat) : Int) by omega,
      render_question_in_range _ _ hcur]
    rw [hget ci hcur, ← hsync, ← hrq]

/-- A consistent Answering state with three answered Text questions and the
cursor at the interior position 1. -/
def answeringInterior : WizardState :=
  { current_step := 2
    current_question_index := 1
    session_name := some "S1"
    questions :=
      [{ question_malay := "Q0", question_type := "Text", select_options := [], answer := some "a" },
       { question_malay := "Q1", question_type := "Text", select_options := [], answer := some "b" },
       { question_malay := "Q2", question_type := "Text", select_options := [], answer := some "c" }]
    answer_input := some "b"
    rendered_question := some 1
    messages := []
    calls := []
    download_links := []
    spec_link := none
    generate_button_shown := true
    download_section_shown := false }

theorem navigation_roundtrip_preserves_answers_witness :
    (0 < answeringInterior.current_question_index
        ∧ answeringInterior.current_question_index + 1 < answeringInterior.questions.length)
      ∧ (goPrev (goNext .ok answeringInterior) = answeringInterior
          ∧ goNext .ok (goPrev answeringInterior) = answeringInterior) :=
  ⟨⟨by decide, by decide⟩,
    navigation_roundtrip_preserves_answers answeringInterior .ok
      (by decide) (by decide) (by decide) (by decide) (by decide)⟩

lemma save_all_answers_cursor (res : SaveAnswersResult) (s : WizardState) :
    (save_all_answers res s).current_question_index = s.current_question_index := by
  cases res <;> rfl

lemma save_all_answers_questions (res : SaveAnswersResult) (s : WizardState) :
    (save_all_answers res s).questions = s.questions := by
  cases res <;> rfl

lemma save_current_answer_cursor (s : WizardState) :
    (save_current_answer s).current_question_index = s.current_question_index := by
  rw [save_current_answer]
  split <;> rfl

lemma save_current_answer_length (s : WizardState) :
    (save_current_answer s).questions.length = s.questions.length := by
  rw [save_current_answer]
  split <;> simp

/-- `show_next_question` keeps the cursor inside `[0, len)`. -/
lemma show_next_question_cursor_lt (res : SaveAnswersResult) (s : WizardState)
    (h : s.current_question_index < s.questions.length) :
    (show_next_question res s).current_question_index
      < (show_next_question res s).questions.length := by
  rw [show_next_question]
  split
  · next hlt =>
    rw [render_question]
    split
    · exact h
    · next hg => dsimp only; omega
  · next => rw [save_all_answers_cursor, save_all_answers_questions]; exact h

/-- `show_previous_question` keeps the cursor inside `[0, len)`. -/
lemma show_previous_question_cursor_lt (s : WizardState)
    (h : s.current_question_index < s.questions.length) :
    (show_previous_question s).current_question_index
      < (show_previous_question s).questions.length := by
  rw [show_previous_question]
  split
  · next hpos =>
    rw [render_question]
    split
    · exact h
    · next hg => dsimp only; omega
  · exact h

/-- **C9**.  Both navigation handlers preserve the cursor invariant
`current_question_index ∈ [0, questions.length)` (the index is a `Nat`, so the
lower bound is structural), and `render_question` called with any out-of-range
index — negative or `≥ length` — is a complete no-op on the wizard state. -/
theorem navigation_cursor_in_bounds (s : WizardState) (res : SaveAnswersResult)
    (h : s.current_question_index < s.questions.length) :
    (goNext res s).current_question_index < (goNext res s).questions.length
      ∧ (goPrev s).current_question_index < (goPrev s).questions.length
      ∧ ∀ j : Int, (j < 0 ∨ (s.questions.length : Int) ≤ j) → render_question j s = s := by
  have h1 : (save_current_answer s).current_question_index
      < (save_current_answer s).questions.length := by
    rw [save_current_answer_cursor, save_current_answer_length]
    exact h
  refine ⟨show_next_question_cursor_lt res _ h1, show_previous_question_cursor_lt _ h1, ?_⟩
  intro j hj
  rw [render_question, if_pos hj]

theorem navigation_cursor_in_bounds_witness :
    answeringInterior.current_question_index < answeringInterior.questions.length
      ∧ ((goNext .ok answeringInterior).current_question_index
            < (goNext .ok answeringInterior).questions.length
          ∧ (goPrev answeringInterior).current_question_index
            < (goPrev answeringInterior).questions.length
          ∧ ∀ j : Int, (j < 0 ∨ (answeringInterior.questions.length : Int) ≤ j) →
              render_question j answeringInterior = answeringInterior) :=
  ⟨by decide, navigation_cursor_in_bounds answeringInterior .ok (by decide)⟩

/-- **C10**.  `save_current_answer` mutates only the `answer` of the question
at the cursor: list length (hence order and identity of all positions) is
unchanged, every other position is untouched, the current question keeps its
text, type and options while its answer becomes the input value; when the
cursor is not below the question count the state is entirely unchanged; and no
other wizard field is written. -/
theorem save_current_answer_frame (s : WizardState) :
    (save_current_answer s).questions.length = s.questions.length
      ∧ (∀ j, j ≠ s.current_question_index →
          (save_current_answer s).questions.getD j dummyQ = s.questions.getD j dummyQ)
      ∧ (s.current_question_index < s.questions.length →
          ((save_current_answer s).questions.getD s.current_question_index dummyQ).question_malay
              = (s.questions.getD s.current_question_index dummyQ).question_malay
            ∧ ((save_current_answer s).questions.getD s.current_question_index dummyQ).question_type
              = (s.questions.getD s.current_question_index dummyQ).question_type
            ∧ ((save_current_answer s).questions.getD s.current_question_index dummyQ).select_options
              = (s.questions.getD s.current_question_index dummyQ).select_options
            ∧ ((save_current_answer s).questions.getD s.current_question_index dummyQ).answer
              = s.answer_input)
      ∧ (s.questions.length ≤ s.current_question_index → save_current_answer s = s)
      ∧ (save_current_answer s).current_step = s.current_step
      ∧ (save_current_answer s).current_question_index = s.current_question_index
      ∧ (save_current_answer s).session_name = s.session_name
      ∧ (save_current_answer s).messages = s.messages
      ∧ (save_current_answer s).calls = s.calls := by
  refine ⟨save_current_answer_length s, ?_, ?_, ?_, ?_, save_current_answer_cursor s, ?_, ?_, ?_⟩
  · intro j hj
    rw [save_current_answer]
    split
    · dsimp only
      rw [List.getD_eq_getElem?_getD, List.getD_eq_getElem?_getD,
        List.getElem?_set_ne (Ne.symm hj)]
      rw [← List.getD_eq_getElem?_getD]
    · rfl
  · intro h
    rw [save_current_answer, if_pos h]
    dsimp only
    rw [List.getD_eq_getElem?_getD, List.getElem?_set_self h, Option.getD_some]
    exact ⟨rfl, rfl, rfl, rfl⟩
  · intro h
    rw [save_current_answer, if_neg (by omega)]
  · rw [save_current_answer]; split <;> rfl
  · rw [save_current_answer]; split <;> rfl
  · rw [save_current_answer]; split <;> rfl
  · rw [save_current_answer]; split <;> rfl

theorem save_current_answer_frame_witness :
    ((save_current_answer answeringLast).questions.getD 1 dummyQ
        = answeringLast.questions.getD 1 dummyQ)
      ∧ ((save_current_answer answeringLast).questions.getD 0 dummyQ).answer
        = answeringLast.answer_input :=
  ⟨(save_current_answer_frame answeringLast).2.1 1 (by decide),
    ((save_current_answer_frame answeringLast).2.2.1 (by decide)).2.2.2⟩

theorem update_progress_formula_witness :
    oneAnsweredQ ≠ []
      ∧ (update_progress oneAnsweredQ
            = jsRound (100 * ((oneAnsweredQ.filter isAnswered).length : ℚ) / (oneAnsweredQ.length : ℚ))
          ∧ (update_progress oneAnsweredQ = 100
              ↔ 199 * oneAnsweredQ.length ≤ 200 * (oneAnsweredQ.filter isAnswered).length)
          ∧ (oneAnsweredQ.length ≤ 199 →
              (update_progress oneAnsweredQ = 100 ↔ ∀ q ∈ oneAnsweredQ, isAnswered q = true))) :=
  ⟨by decide, update_progress_formula oneAnsweredQ (by decide)⟩

end SpecGen
